import Mathlib

/-!
Shallow embedding of `src/check/load/index.ts` from playwright-baseline-tests.

The module exports six asynchronous check functions built on Playwright's
`expect`.  Each check either resolves (success) or rejects with an assertion
error carrying a message.  We model a check's outcome as `Except String Unit`:
`.ok ()` for a resolving promise, `.error msg` for a rejection whose assertion
message is `msg`.

Where a check also performs observable framework calls before asserting
(`page.waitForLoadState`, spawning per-selector waits), the embedding returns
the list of those observable steps next to the outcome, so that ordering
claims can be stated.

JavaScript execution is single-threaded and cooperative: between two points of
a function body with no `await` between them, no event callback can run.  The
embedding of `checkNoUnhandledNetworkFailures` makes that window explicit.
-/

deriving instance DecidableEq for Except

namespace PlaywrightBaseline

/-- Embeds a Playwright `Locator` as used by `checkTransientVisibility`: the only
capability the code consumes is `locator.waitFor({ state: "hidden", timeout })`.
`hasElement` records whether the selector matches an element on the page;
`hiddenAt` is the first instant (ms) at which that element is hidden, `none`
if it stays visible forever.  `waitFor` with state `"hidden"` succeeds
immediately for a selector with no matching element. -/
structure Locator where
  hasElement : Bool
  hiddenAt : Option Nat
deriving DecidableEq, Repr

/-- Embeds a failed network request as seen by the `requestfailed` listener: the only
capability consumed is `request.resourceType()`. -/
structure Request where
  resourceType : String
deriving DecidableEq, Repr

/-- Embeds the Playwright `Page` capabilities the checks consume:
`evaluate(() => document.readyState)` (field `readyState`),
`$eval("body", body => body.innerHTML)` (field `bodyInnerHTML`), and
`page.locator(selector)` (field `locator`, `Option` because the source guards
against a `null`/`undefined` locator). -/
structure Page where
  readyState : String
  bodyInnerHTML : String
  locator : String → Option Locator

/-- Embeds the navigation `Response` capabilities consumed by `checkPageFound`:
`response.ok()` and `response.status()`. -/
structure Response where
  ok : Bool
  status : Nat
deriving DecidableEq, Repr

/-- Embeds `CheckArgs` from `src/interfaces/check.ts`. -/
structure CheckArgs where
  page : Page

/-- Embeds `CheckResponseArgs` from `src/interfaces/check.ts`: extends `CheckArgs`
with the navigation response. -/
structure CheckResponseArgs where
  page : Page
  response : Response

/-- Message of a failed jest-style `expect(received).toBe(expected)` on
strings, as the repository's own tests match it:
`Expected: "complete"\nReceived: "interactive"`. -/
def toBeStringMessage (expected received : String) : String :=
  "Expected: \"" ++ expected ++ "\"\nReceived: \"" ++ received ++ "\""

/-- Observable framework calls made by `checkPageIsLoaded` before its
assertion. -/
inductive PageEvent where
  | waitForLoadState (state : String)
deriving DecidableEq, Repr

/-- Embeds `checkPageIsLoaded` (lines 4-8): awaits load state `"domcontentloaded"`,
then load state `"load"`, then asserts
`expect(await page.evaluate(() => document.readyState)).toBe("complete")`.
Returned are the ordered lifecycle waits and the assertion outcome. -/
def checkPageIsLoaded (args : CheckArgs) : List PageEvent × Except String Unit :=
  ([PageEvent.waitForLoadState ("domcontentloaded"), PageEvent.waitForLoadState ("load")],
   if args.page.readyState = "complete" then Except.ok ()
   else Except.error (toBeStringMessage ("complete") (args.page.readyState)))

/-- Embeds `checkPageFound` (lines 10-16): three sequential assertions on the
response, each with its own message; the first failing one rejects
immediately.
```
expect(response.ok(), { message: "Response is not OK" }).toBe(true);
expect(response.status(), "Response status is 404").not.toBe(404);
expect(response.status(), "Response status is not 200").toBe(200);
```
-/
def checkPageFound (args : CheckResponseArgs) : Except String Unit :=
  if args.response.ok ≠ true then Except.error ("Response is not OK")
  else if args.response.status = 404 then Except.error ("Response status is 404")
  else if args.response.status ≠ 200 then Except.error ("Response status is not 200")
  else Except.ok ()

/-- Models JavaScript `String.prototype.trim()`: drops whitespace characters
from both ends of the string.  (Defined over the character list so that it
evaluates by kernel reduction; `Char.isWhitespace` covers the space, tab and
line-break characters relevant to serialized markup.) -/
def jsTrim (s : String) : String :=
  String.mk (((s.data.dropWhile Char.isWhitespace).reverse.dropWhile Char.isWhitespace).reverse)

/-- Embeds `checkBasicContentPresence` (lines 18-23): reads `body.innerHTML`, then
`expect(bodyContent.trim().length).toBeGreaterThan(0)`. -/
def checkBasicContentPresence (args : CheckArgs) : Except String Unit :=
  let bodyContent := args.page.bodyInnerHTML
  if 0 < (jsTrim bodyContent).length then Except.ok ()
  else Except.error ("expected " ++ toString (jsTrim bodyContent).length ++ " to be greater than 0")

/-- Embeds `CheckTransientVisibilityArgs` (lines 25-28): page, selector list, and an
optional maximum visible time defaulting to 0 ms. -/
structure CheckTransientVisibilityArgs where
  page : Page
  selectors : List String
  maxVisibleTime : Nat := 0

/-- Records whether `locator.waitFor({ state: "hidden", timeout })` resolves: a
selector with no matching element is already hidden; otherwise the element
must become hidden no later than `timeout` ms. -/
def waitForHiddenResolves (loc : Locator) (timeout : Nat) : Bool :=
  if loc.hasElement = false then true
  else
    match loc.hiddenAt with
    | some t => decide (t ≤ timeout)
    | none => false

/-- Describes one iteration of the `for (const selector of selectors)` loop in
`checkTransientVisibility` (lines 46-54).  A `null`/`undefined` locator is
skipped by `continue`.  Otherwise the iteration spawns
`expect(async () => { locator.waitFor(...) }, msg).toPass()` WITHOUT awaiting
it; `spawned` records the outcome that detached assertion stands for — the
custom message `Element ${selector} is still visible after ${maxVisibleTime}ms`
when the wait for hiddenness fails, success otherwise. -/
inductive SelectorStep where
  | skipped
  | spawned (outcome : Except String Unit)
deriving DecidableEq, Repr

/-- Embeds the per-selector loop body of `checkTransientVisibility`. -/
def transientVisibilityStep (page : Page) (maxVisibleTime : Nat) (selector : String) : SelectorStep :=
  match page.locator selector with
  | none => SelectorStep.skipped
  | some loc =>
      SelectorStep.spawned
        (if waitForHiddenResolves loc maxVisibleTime then Except.ok ()
         else Except.error ("Element " ++ selector ++ " is still visible after "
           ++ toString maxVisibleTime ++ "ms"))

/-- Embeds `checkTransientVisibility` (lines 41-55).  The loop body only SPAWNS each
`expect(...).toPass()` promise: neither the `toPass()` promise nor the inner
`locator.waitFor` is awaited, so no rejection ever propagates to the function
and its own promise always resolves.  The embedding returns the ordered list
of per-selector steps next to the (always successful) resolution of the
function itself. -/
def checkTransientVisibility (args : CheckTransientVisibilityArgs) : List SelectorStep × Except String Unit :=
  (args.selectors.map (transientVisibilityStep args.page args.maxVisibleTime), Except.ok ())

/-- Embeds `DEFAULT_SPINNER_SELECTOR` (lines 66-75): generic spinner classes plus
Ant Design, Font Awesome, Vuetify and Element UI class names. -/
def DEFAULT_SPINNER_SELECTOR : List String :=
  [".spinner", ".loading-spinner", ".loading-indicator", ".ant-spin",
   ".fa-spinner", ".fas.fa-spinner", ".v-progress-circular", ".el-loading-spinner"]

/-- Embeds `DEFAULT_PROGRESS_BAR_SELECTOR` (lines 80-85): generic progress-bar
selectors plus Angular Material and Material UI class names. -/
def DEFAULT_PROGRESS_BAR_SELECTOR : List String :=
  [".progress-bar", "[role=\x27progressbar\x27]", ".mat-progress-bar", ".MuiCircularProgress-root"]

/-- Embeds `DEFAULT_LOADING_SELECTORS` (lines 88-91): the spread-concatenation of the
spinner selectors and the progress-bar selectors, in that order. -/
def DEFAULT_LOADING_SELECTORS : List String :=
  DEFAULT_SPINNER_SELECTOR ++ DEFAULT_PROGRESS_BAR_SELECTOR

/-- Embeds `checkNoCriticalLoadingIndicators` (lines 57-64): delegates to
`checkTransientVisibility` with `selectors` defaulting to
`DEFAULT_LOADING_SELECTORS` and `maxVisibleTime` defaulting to 0.  (The
delegated call is itself not awaited, but `checkTransientVisibility`'s body
is fully synchronous and always resolves, so the observable behavior is the
delegate's.) -/
def checkNoCriticalLoadingIndicators (page : Page)
    (selectors : List String := DEFAULT_LOADING_SELECTORS)
    (maxVisibleTime : Nat := 0) : List SelectorStep × Except String Unit :=
  checkTransientVisibility { page := page, selectors := selectors, maxVisibleTime := maxVisibleTime }

/-- Embeds the `requestfailed` listener installed by `checkNoUnhandledNetworkFailures`
(lines 98-105): pushes the request onto `failedRequests` exactly when its
resource type is `"stylesheet"` or `"script"`. -/
def requestFailedListener (failedRequests : List Request) (request : Request) : List Request :=
  if request.resourceType = "stylesheet" || request.resourceType = "script"
  then failedRequests ++ [request]
  else failedRequests

/-- Computes the contents of `failedRequests` after the listener has processed the
given `requestfailed` events in order, starting from the empty array created
at line 97. -/
def collectFailures (events : List Request) : List Request :=
  events.foldl requestFailedListener []

/-- Describes the `requestfailed` events delivered to the page over the lifetime of
`checkNoUnhandledNetworkFailures`, split by when they can be dispatched.
JavaScript callbacks only run at `await` points: the body's single `await` is
`page.route(...)` at line 96, BEFORE `page.on` subscribes the listener, and
the function returns right after the assertion, so events are dispatched
either during that route await (listener not yet attached) or after the check
has returned. -/
structure NetworkSchedule where
  duringRouteSetup : List Request
  afterReturn : List Request

/-- Gives the `requestfailed` events dispatched between the `page.on` subscription
(line 98) and the `expect` assertion (line 106).  These two statements execute
in the same synchronous step — there is no `await` between them — so no event
can be dispatched in that window, whatever the schedule. -/
def eventsBetweenSubscribeAndAssert (_schedule : NetworkSchedule) : List Request := []

/-- Message of a failed `expect(received).toBe(expected)` on numbers. -/
def toBeNatMessage (expected received : Nat) : String :=
  "Expected: " ++ toString expected ++ "\nReceived: " ++ toString received

/-- Embeds `checkNoUnhandledNetworkFailures` (lines 93-107): awaits a pass-through
route for `**/*.{css,js}`, creates the empty `failedRequests` array,
subscribes `requestFailedListener`, and immediately asserts
`expect(failedRequests.length).toBe(0)`.  At the assertion, `failedRequests`
holds exactly the stylesheet/script failures dispatched since the
subscription. -/
def checkNoUnhandledNetworkFailures (_args : CheckArgs) (schedule : NetworkSchedule) : Except String Unit :=
  let failedRequests := collectFailures (eventsBetweenSubscribeAndAssert schedule)
  if failedRequests.length = 0 then Except.ok ()
  else Except.error (toBeNatMessage 0 failedRequests.length)

/-! ## Concrete handles used as witnesses -/

/-- A concrete page handle with the given body markup, a complete ready-state
and no locatable elements. -/
def examplePage (body : String) : Page :=
  { readyState := "complete", bodyInnerHTML := body, locator := fun _ => none }

/-- A locator whose element exists and never becomes hidden. -/
def alwaysVisibleLocator : Locator :=
  { hasElement := true, hiddenAt := none }

/-- A locator that matches no element on the page. -/
def noMatchLocator : Locator :=
  { hasElement := false, hiddenAt := none }

/-- A page on which the selector `.spinner` resolves to an element that stays
visible forever. -/
def stuckSpinnerPage : Page :=
  { readyState := "complete",
    bodyInnerHTML := "<div class=\x27spinner\x27></div>",
    locator := fun s => if s = ".spinner" then some alwaysVisibleLocator else none }

/-- A page on which the selector `.ghost` yields a locator matching no
element. -/
def ghostPage : Page :=
  { readyState := "complete",
    bodyInnerHTML := "<p>content</p>",
    locator := fun s => if s = ".ghost" then some noMatchLocator else none }

/-- A failed request of resource type `script`. -/
def failedScriptRequest : Request := { resourceType := "script" }

/-- A failed request of resource type `stylesheet`. -/
def failedStylesheetRequest : Request := { resourceType := "stylesheet" }

/-- A failed request of resource type `image`. -/
def failedImageRequest : Request := { resourceType := "image" }

/-! ## Substring containment, for message claims -/

/-- Substring containment, stated over the underlying character lists. -/
def strContains (s sub : String) : Prop :=
  ∃ pre post : List Char, s.data = pre ++ sub.data ++ post

/-- A jest-style `toBe` failure message contains the expected value. -/
theorem toBeStringMessage_contains_expected (e r : String) :
    strContains (toBeStringMessage e r) e := by
  refine ⟨"Expected: \"".data, ("\"\nReceived: \"" ++ r ++ "\"").data, ?_⟩
  simp [toBeStringMessage, String.data_append, List.append_assoc]

/-- A jest-style `toBe` failure message contains the received value. -/
theorem toBeStringMessage_contains_received (e r : String) :
    strContains (toBeStringMessage e r) r := by
  refine ⟨("Expected: \"" ++ e ++ "\"\nReceived: \"").data, "\"".data, ?_⟩
  simp [toBeStringMessage, String.data_append, List.append_assoc]

/-! ## Claims -/

/-- C1: `checkPageFound` succeeds iff `ok = true ∧ status ≠ 404 ∧ status = 200`
(in particular over the whole matrix `{ok} × {200, 404, 500}` it fails exactly
when the conjunction is false), the assertions run in the order ok-check,
not-404, equals-200, and the first failing assertion rejects immediately with
the message identifying that clause. -/
theorem checkPageFound_matrix_spec (a : CheckResponseArgs) :
    (checkPageFound a = Except.ok () ↔
      (a.response.ok = true ∧ a.response.status ≠ 404 ∧ a.response.status = 200))
    ∧ (a.response.ok = false → checkPageFound a = Except.error ("Response is not OK"))
    ∧ (a.response.ok = true → a.response.status = 404 →
        checkPageFound a = Except.error ("Response status is 404"))
    ∧ (a.response.ok = true → a.response.status ≠ 404 → a.response.status ≠ 200 →
        checkPageFound a = Except.error ("Response status is not 200")) := by
  obtain ⟨p, ⟨ok, status⟩⟩ := a
  unfold checkPageFound
  by_cases hok : ok = true <;> by_cases h4 : status = 404 <;> by_cases h2 : status = 200 <;>
    simp_all

/-- Witness for C1: with `ok = false` and `status = 500` the first assertion
fails with its message. -/
theorem checkPageFound_matrix_spec_witness :
    checkPageFound { page := examplePage ("<p>a</p>"), response := { ok := false, status := 500 } }
      = Except.error ("Response is not OK") :=
  (checkPageFound_matrix_spec
    { page := examplePage ("<p>a</p>"), response := { ok := false, status := 500 } }).2.1 rfl

/-- C9: the outcome of `checkPageFound` depends only on the response's `ok()`
and `status()` values, never on the page handle. -/
theorem checkPageFound_independent_of_page (a b : CheckResponseArgs)
    (hok : a.response.ok = b.response.ok) (hst : a.response.status = b.response.status) :
    checkPageFound a = checkPageFound b := by
  unfold checkPageFound
  rw [hok, hst]

/-- Witness for C9: two invocations whose pages differ (different ready-state,
body and locatable elements) but whose responses agree produce the same
result. -/
theorem checkPageFound_independent_of_page_witness :
    checkPageFound { page := examplePage ("<p>a</p>"), response := { ok := true, status := 200 } }
      = checkPageFound { page := stuckSpinnerPage, response := { ok := true, status := 200 } } :=
  checkPageFound_independent_of_page
    { page := examplePage ("<p>a</p>"), response := { ok := true, status := 200 } }
    { page := stuckSpinnerPage, response := { ok := true, status := 200 } } rfl rfl

/-- C4: `checkPageIsLoaded` waits for `"domcontentloaded"` and then `"load"`
before asserting, succeeds iff the ready-state is `"complete"`, and for every
other ready-state fails with a message containing both the literal
`"complete"` and the observed ready-state. -/
theorem checkPageIsLoaded_spec (a : CheckArgs) :
    (checkPageIsLoaded a).1
      = [PageEvent.waitForLoadState ("domcontentloaded"), PageEvent.waitForLoadState ("load")]
    ∧ ((checkPageIsLoaded a).2 = Except.ok () ↔ a.page.readyState = "complete")
    ∧ (a.page.readyState ≠ "complete" →
        (checkPageIsLoaded a).2 = Except.error (toBeStringMessage ("complete") (a.page.readyState))
        ∧ strContains (toBeStringMessage ("complete") (a.page.readyState)) ("complete")
        ∧ strContains (toBeStringMessage ("complete") (a.page.readyState)) (a.page.readyState)) := by
  refine ⟨rfl, ?_, ?_⟩
  · unfold checkPageIsLoaded
    by_cases h : a.page.readyState = "complete" <;> simp [h]
  · intro h
    refine ⟨?_, toBeStringMessage_contains_expected _ _, toBeStringMessage_contains_received _ _⟩
    unfold checkPageIsLoaded
    simp [h]

/-- Witness for C4 at ready-state `"interactive"`. -/
theorem checkPageIsLoaded_spec_witness :
    (checkPageIsLoaded { page := { readyState := "interactive", bodyInnerHTML := "x", locator := fun _ => none } }).2
      = Except.error (toBeStringMessage ("complete") ("interactive")) :=
  ((checkPageIsLoaded_spec
    { page := { readyState := "interactive", bodyInnerHTML := "x", locator := fun _ => none } }).2.2
    (by decide)).1

/-- C5: `checkBasicContentPresence` succeeds iff the trimmed body markup is
non-empty; a whitespace-only body fails and `"<div>Hello</div>"` passes. -/
theorem checkBasicContentPresence_spec :
    (∀ a : CheckArgs,
      checkBasicContentPresence a = Except.ok () ↔ 0 < (jsTrim a.page.bodyInnerHTML).length)
    ∧ checkBasicContentPresence { page := examplePage ("   ") } ≠ Except.ok ()
    ∧ checkBasicContentPresence { page := examplePage ("<div>Hello</div>") } = Except.ok () := by
  refine ⟨?_, by decide, by decide⟩
  intro a
  unfold checkBasicContentPresence
  by_cases h : 0 < (jsTrim a.page.bodyInnerHTML).length <;> simp [h]

/-- C2 (code-bug evidence): on a page whose `.spinner` element stays visible
forever past `maxVisibleTime = 0`, the per-selector iteration spawns an
assertion whose failure message names the selector and the duration — yet
`checkTransientVisibility` itself still resolves successfully, because the
spawned `expect(...).toPass()` and the inner `waitFor` are never awaited, so
the claimed failure is never propagated to the caller. -/
theorem checkTransientVisibility_stuck_spinner_resolves_ok :
    (checkTransientVisibility
        { page := stuckSpinnerPage, selectors := [".spinner"], maxVisibleTime := 0 }).2
      = Except.ok ()
    ∧ (checkTransientVisibility
        { page := stuckSpinnerPage, selectors := [".spinner"], maxVisibleTime := 0 }).1
      = [SelectorStep.spawned (Except.error ("Element .spinner is still visible after 0ms"))] := by
  constructor
  · rfl
  · decide

/-- Decides whether the locator obtained for a selector matches no element on
the page (including the `null`/`undefined` locator the source guards
against). -/
def locatorMatchesNothing (page : Page) (selector : String) : Bool :=
  match page.locator selector with
  | none => true
  | some loc => !loc.hasElement

/-- C6: a selector with no matching element never causes
`checkTransientVisibility` to fail, regardless of `maxVisibleTime`: its loop
iteration is either skipped or spawns a wait that is trivially satisfied, and
the check as a whole resolves successfully. -/
theorem transientVisibility_unmatched_selector_never_fails
    (a : CheckTransientVisibilityArgs) (selector : String)
    (h : locatorMatchesNothing a.page selector = true) :
    (∀ m : String,
      transientVisibilityStep a.page a.maxVisibleTime selector
        ≠ SelectorStep.spawned (Except.error m))
    ∧ (checkTransientVisibility a).2 = Except.ok () := by
  refine ⟨?_, rfl⟩
  intro m
  unfold locatorMatchesNothing at h
  unfold transientVisibilityStep
  cases hl : a.page.locator selector with
  | none => simp
  | some loc =>
      rw [hl] at h
      simp only [Bool.not_eq_true'] at h
      simp [waitForHiddenResolves, h]

/-- Witness for C6: on `ghostPage` the selector `.ghost` matches nothing and
the check resolves successfully. -/
theorem transientVisibility_unmatched_selector_never_fails_witness :
    (∀ m : String,
      transientVisibilityStep ghostPage 0 (".ghost")
        ≠ SelectorStep.spawned (Except.error m))
    ∧ (checkTransientVisibility
        { page := ghostPage, selectors := [".ghost"], maxVisibleTime := 0 }).2 = Except.ok () :=
  transientVisibility_unmatched_selector_never_fails
    { page := ghostPage, selectors := [".ghost"], maxVisibleTime := 0 } (".ghost") (by decide)

/-- C7: with default arguments, `checkNoCriticalLoadingIndicators` behaves
identically to `checkTransientVisibility` invoked with the built-in default
selector list and `maxVisibleTime = 0`: same per-selector steps (hence same
failure messages) and same resolution. -/
theorem checkNoCriticalLoadingIndicators_default_refines (page : Page) :
    checkNoCriticalLoadingIndicators page
      = checkTransientVisibility
          { page := page, selectors := DEFAULT_LOADING_SELECTORS, maxVisibleTime := 0 } :=
  rfl

/-- Witness for C7 at a concrete page. -/
theorem checkNoCriticalLoadingIndicators_default_refines_witness :
    checkNoCriticalLoadingIndicators stuckSpinnerPage
      = checkTransientVisibility
          { page := stuckSpinnerPage, selectors := DEFAULT_LOADING_SELECTORS, maxVisibleTime := 0 } :=
  checkNoCriticalLoadingIndicators_default_refines stuckSpinnerPage

/-- C8: the built-in default selector list is the ordered concatenation of the
spinner selectors and the progress-bar selectors; it names classes of Ant
Design, Font Awesome, Vuetify, Element UI, Angular Material and Material UI;
and the default invocation of `checkNoCriticalLoadingIndicators` uses exactly
that list with `maxVisibleTime = 0`. -/
theorem defaultLoadingSelectors_spec :
    DEFAULT_LOADING_SELECTORS = DEFAULT_SPINNER_SELECTOR ++ DEFAULT_PROGRESS_BAR_SELECTOR
    ∧ (".ant-spin" : String) ∈ DEFAULT_LOADING_SELECTORS
    ∧ (".fa-spinner" : String) ∈ DEFAULT_LOADING_SELECTORS
    ∧ (".v-progress-circular" : String) ∈ DEFAULT_LOADING_SELECTORS
    ∧ (".el-loading-spinner" : String) ∈ DEFAULT_LOADING_SELECTORS
    ∧ (".mat-progress-bar" : String) ∈ DEFAULT_LOADING_SELECTORS
    ∧ (".MuiCircularProgress-root" : String) ∈ DEFAULT_LOADING_SELECTORS
    ∧ ∀ page : Page,
        checkNoCriticalLoadingIndicators page
          = checkTransientVisibility
              { page := page,
                selectors := DEFAULT_SPINNER_SELECTOR ++ DEFAULT_PROGRESS_BAR_SELECTOR,
                maxVisibleTime := 0 } := by
  refine ⟨rfl, ?_, ?_, ?_, ?_, ?_, ?_, fun page => rfl⟩ <;> decide

/-- C3 (code-bug evidence): the `requestfailed` listener counts exactly the
stylesheet/script failures (an image failure is ignored, a script failure
would be collected with count 1), but `checkNoUnhandledNetworkFailures` still
resolves successfully on a schedule with one failed script request, because
the assertion runs synchronously before any event can be dispatched. -/
theorem networkFailures_script_failure_still_passes :
    checkNoUnhandledNetworkFailures { page := examplePage ("<p>x</p>") }
        { duringRouteSetup := [], afterReturn := [failedScriptRequest] }
      = Except.ok ()
    ∧ collectFailures [failedScriptRequest] = [failedScriptRequest]
    ∧ (collectFailures [failedScriptRequest]).length = 1
    ∧ collectFailures [failedImageRequest] = []
    ∧ collectFailures [failedStylesheetRequest] = [failedStylesheetRequest] := by
  refine ⟨rfl, ?_, ?_, ?_, ?_⟩ <;> decide

/-- C10: `checkNoUnhandledNetworkFailures` asserts in the same synchronous
step in which it creates the empty collection and subscribes the listener, so
the collected list is empty at the assertion and the assertion never fails,
for every page handle and every schedule of `requestfailed` events. -/
theorem networkFailures_assertion_never_fails (a : CheckArgs) (s : NetworkSchedule) :
    collectFailures (eventsBetweenSubscribeAndAssert s) = []
    ∧ checkNoUnhandledNetworkFailures a s = Except.ok () :=
  ⟨rfl, rfl⟩

end PlaywrightBaseline
